import Mathlib

/-!
Verification of the interaction-to-volume engines of the
"Unintuitive Volume Controls" application (src/volume_sliders.py, src/main.py).

Each widget's algorithmic core is embedded as a pure Lean function over exact
rationals; Python's float square root and float sine are abstracted as explicit
function parameters, and Python's `int()` truncation toward zero is modelled by
`pyInt`.
-/

set_option autoImplicit false

/-- Python's `int()` applied to a float: truncation toward zero. -/
def pyInt (q : ℚ) : ℤ := if q < 0 then ⌈q⌉ else ⌊q⌋

theorem pyInt_of_nonneg {q : ℚ} (h : 0 ≤ q) : pyInt q = ⌊q⌋ := by
  simp [pyInt, not_lt.mpr h]

namespace Slingshot

/-- `Slingshot.mouseReleaseEvent`, volume computation as a function of the
pullback distance: `volume = int(min(100, (distance / 200.0) * 100))`. -/
def volumeOfDistance (distance : ℚ) : ℤ :=
  pyInt (min 100 (distance / 200 * 100))

/-- `Slingshot.mouseReleaseEvent`: if not dragging, return with no emission;
otherwise the pullback vector is `slingshot_base - drag_pos`, its Euclidean
length is taken with the float square root `sqrtq`, and the volume is emitted
once.  The result is the emitted volume, `none` when nothing is emitted. -/
def mouseReleaseEvent (sqrtq : ℚ → ℚ) (isDragging : Bool)
    (base dragPos : ℚ × ℚ) : Option ℤ :=
  if isDragging = false then none
  else
    let pullback : ℚ × ℚ := (base.1 - dragPos.1, base.2 - dragPos.2)
    let distance := sqrtq (pullback.1 ^ 2 + pullback.2 ^ 2)
    some (volumeOfDistance distance)

end Slingshot

/-- C1 counterexample: at pullback distance `d = 3` the code emits
`int(min(100, 1.5)) = 1`, while the claimed formula
`clamp(round(100*d/200), 0, 100)` gives `round(3/2) = 2`. -/
theorem c1_counterexample :
    Slingshot.volumeOfDistance 3 ≠
      max 0 (min 100 (round ((100 * 3 : ℚ) / 200))) := by
  norm_num [Slingshot.volumeOfDistance, pyInt, round_eq]

/-- C1 (amended): on pointer-up after a drag, for a pullback distance `d ≥ 0`
the volume emitted exactly once equals `min(100, floor(100*d/200))`
(truncation, not rounding); in particular `d = 50` yields 25, `d = 200`
yields 100 and `d = 400` yields 100 (clamped). -/
theorem c1_slingshot_volume (sqrtq : ℚ → ℚ) (base dragPos : ℚ × ℚ) (d : ℚ)
    (hd : 0 ≤ d)
    (hsq : sqrtq ((base.1 - dragPos.1) ^ 2 + (base.2 - dragPos.2) ^ 2) = d) :
    Slingshot.mouseReleaseEvent sqrtq true base dragPos
      = some (min 100 ⌊(100 * d : ℚ) / 200⌋) ∧
    Slingshot.volumeOfDistance 50 = 25 ∧
    Slingshot.volumeOfDistance 200 = 100 ∧
    Slingshot.volumeOfDistance 400 = 100 := by
  refine ⟨?_, by norm_num [Slingshot.volumeOfDistance, pyInt],
    by norm_num [Slingshot.volumeOfDistance, pyInt],
    by norm_num [Slingshot.volumeOfDistance, pyInt]⟩
  simp only [Slingshot.mouseReleaseEvent, Slingshot.volumeOfDistance, hsq]
  rw [if_neg (by simp)]
  have h1 : (100 * d : ℚ) / 200 = d / 200 * 100 := by ring
  have h2 : (0 : ℚ) ≤ min 100 (d / 200 * 100) :=
    le_min (by norm_num) (by positivity)
  rw [h1, pyInt_of_nonneg h2]
  congr 1
  have h100 : (⌊(100 : ℚ)⌋ : ℤ) = 100 := by norm_num
  rcases le_total (d / 200 * 100) 100 with h | h
  · rw [min_eq_right h, min_eq_right (h100 ▸ Int.floor_le_floor h)]
  · rw [min_eq_left h, min_eq_left (h100 ▸ Int.floor_le_floor h), h100]

/-- C1 witness: a drag with pullback distance 50 emits volume 25. -/
theorem c1_witness :
    Slingshot.mouseReleaseEvent (fun _ => (50 : ℚ)) true (0, 0) (0, 0)
      = some 25 := by
  have h := (c1_slingshot_volume (fun _ => (50 : ℚ)) (0, 0) (0, 0) 50
    (by norm_num) rfl).1
  rw [h]
  norm_num

namespace GravitySlider

/-- The float constant `math.pi` as an exact rational. -/
def mathPi : ℚ := 884279719003555 / 281474976710656

/-- Physics state of `GravitySlider`: smoothed angle, ball position and
ball velocity. -/
structure TiltState where
  angle : ℚ
  ballPos : ℚ
  ballVelocity : ℚ

/-- Angle smoothing at the top of `GravitySlider._update_physics`:
`delta = target - angle`, wrapped across the `±π` boundary, then
`angle += delta * 0.1`. -/
def newAngle (target : ℚ) (s : TiltState) : ℚ :=
  let d0 := target - s.angle
  let d1 := if d0 > mathPi then d0 - 2 * mathPi else d0
  let d2 := if d1 < -mathPi then d1 + 2 * mathPi else d1
  s.angle + d2 * (1 / 10)

/-- Ball velocity after gravity and friction
(`velocity += 0.007*sin(angle); velocity *= 0.985`), before the clamp.
`sinq` stands for the float `math.sin`. -/
def rawVelocity (sinq : ℚ → ℚ) (target : ℚ) (s : TiltState) : ℚ :=
  (s.ballVelocity + 7 / 1000 * sinq (newAngle target s)) * (197 / 200)

/-- Ball position after `pos += velocity`, before the clamp. -/
def rawPos (sinq : ℚ → ℚ) (target : ℚ) (s : TiltState) : ℚ :=
  s.ballPos + rawVelocity sinq target s

/-- `volume = int(50 * (1 - pos)); volume = max(0, min(100, volume))`. -/
def volumeOfPos (p : ℚ) : ℤ :=
  max 0 (min 100 (pyInt (50 * (1 - p))))

/-- One tick of `GravitySlider._update_physics`: angle smoothing, gravity,
friction, integration, clamping of `ballPos` to `[-1, 1]` with velocity scaled
by `BOUNCE_ENERGY_LOSS = -0.4` on clamp, then emission of the volume computed
from the clamped position.  Returns the new state and the emitted volume. -/
def update_physics (sinq : ℚ → ℚ) (target : ℚ) (s : TiltState) :
    TiltState × ℤ :=
  let angle1 := newAngle target s
  let v1 := rawVelocity sinq target s
  let p1 := rawPos sinq target s
  let s' : TiltState :=
    if p1 > 1 then ⟨angle1, 1, v1 * (-2 / 5)⟩
    else if p1 < -1 then ⟨angle1, -1, v1 * (-2 / 5)⟩
    else ⟨angle1, p1, v1⟩
  (s', volumeOfPos s'.ballPos)

/-- Any sequence of ticks, one target angle per tick. -/
def run (sinq : ℚ → ℚ) (targets : List ℚ) (s : TiltState) : TiltState :=
  targets.foldl (fun s t => (update_physics sinq t s).1) s

theorem update_physics_pos_bound (sinq : ℚ → ℚ) (target : ℚ) (s : TiltState) :
    -1 ≤ (update_physics sinq target s).1.ballPos ∧
      (update_physics sinq target s).1.ballPos ≤ 1 := by
  unfold update_physics
  dsimp only
  split
  · simp
  · split
    · simp
    · rename_i h1 h2
      exact ⟨le_of_not_lt h2, le_of_not_lt h1⟩

theorem run_pos_bound (sinq : ℚ → ℚ) (targets : List ℚ) (s : TiltState)
    (h₁ : -1 ≤ s.ballPos) (h₂ : s.ballPos ≤ 1) :
    -1 ≤ (run sinq targets s).ballPos ∧ (run sinq targets s).ballPos ≤ 1 := by
  induction targets generalizing s with
  | nil => exact ⟨h₁, h₂⟩
  | cons t ts ih =>
    have hb := update_physics_pos_bound sinq t s
    exact ih ((update_physics sinq t s).1) hb.1 hb.2

end GravitySlider

/-- C2: for every float-sine function, every initial state with `ballPos` in
`[-1, 1]` and every sequence of target angles, `ballPos` stays in `[-1, 1]`
after every tick; and whenever the integrated position leaves `[-1, 1]` (so the
position is clamped), the new velocity is the pre-clamp velocity multiplied by
the negative bounce-loss factor `-0.4`. -/
theorem c2_gravity_ball_invariant (sinq : ℚ → ℚ) (targets : List ℚ)
    (s₀ : GravitySlider.TiltState)
    (h₁ : -1 ≤ s₀.ballPos) (h₂ : s₀.ballPos ≤ 1) :
    (-1 ≤ (GravitySlider.run sinq targets s₀).ballPos ∧
      (GravitySlider.run sinq targets s₀).ballPos ≤ 1) ∧
    ∀ target s, (1 < GravitySlider.rawPos sinq target s ∨
        GravitySlider.rawPos sinq target s < -1) →
      (GravitySlider.update_physics sinq target s).1.ballVelocity
        = GravitySlider.rawVelocity sinq target s * (-2 / 5) := by
  refine ⟨GravitySlider.run_pos_bound sinq targets s₀ h₁ h₂, ?_⟩
  intro target s h
  unfold GravitySlider.update_physics
  dsimp only
  rcases h with h | h
  · rw [if_pos h]
  · rw [if_neg (by rcases lt_or_le (1 : ℚ) (GravitySlider.rawPos sinq target s)
        with h' | h' <;> [exact absurd h (by linarith); exact not_lt.mpr h']),
      if_pos h]

/-- C2 witness: a single tick with zero sine from the initial state keeps the
ball in `[-1, 1]`. -/
theorem c2_witness :
    -1 ≤ (GravitySlider.run (fun _ => 0) [0] ⟨0, 0, 0⟩).ballPos ∧
      (GravitySlider.run (fun _ => 0) [0] ⟨0, 0, 0⟩).ballPos ≤ 1 :=
  (c2_gravity_ball_invariant (fun _ => 0) [0] ⟨0, 0, 0⟩
    (by norm_num) (by norm_num)).1

/-- C8 counterexample: with `sin` evaluating to `0.156` (the value of
`sin(π/20)` reached one tick after dragging to target angle `1` is about
`0.156...`), one tick from the initial state leaves `ballPos ≈ 0.00107562`,
and the code emits `int(49.9462...) = 49`, while the claimed formula
`clamp(round(50*(1-ballPos)), 0, 100)` gives `50`. -/
theorem c8_counterexample :
    (GravitySlider.update_physics (fun _ => (39 / 250 : ℚ)) 1 ⟨0, 0, 0⟩).2 ≠
      max 0 (min 100 (round (50 * (1 -
        (GravitySlider.update_physics (fun _ => (39 / 250 : ℚ)) 1
          ⟨0, 0, 0⟩).1.ballPos)))) := by
  norm_num [GravitySlider.update_physics, GravitySlider.newAngle,
    GravitySlider.rawVelocity, GravitySlider.rawPos, GravitySlider.volumeOfPos,
    GravitySlider.mathPi, pyInt, round_eq]

/-- C8 (amended): on every physics tick, after updating the ball, the emitted
volume equals `clamp(floor(50*(1-ballPos)), 0, 100)` of the post-tick
`ballPos` — truncation toward zero (which is `floor` here since the clamped
position keeps `50*(1-ballPos)` nonnegative), not rounding to nearest. -/
theorem c8_gravity_volume (sinq : ℚ → ℚ) (target : ℚ)
    (s : GravitySlider.TiltState) :
    (GravitySlider.update_physics sinq target s).2
      = max 0 (min 100 ⌊(50 : ℚ) * (1 -
          (GravitySlider.update_physics sinq target s).1.ballPos)⌋) := by
  have hb := GravitySlider.update_physics_pos_bound sinq target s
  have hrfl : (GravitySlider.update_physics sinq target s).2
      = GravitySlider.volumeOfPos
          (GravitySlider.update_physics sinq target s).1.ballPos := rfl
  rw [hrfl]
  unfold GravitySlider.volumeOfPos
  rw [pyInt_of_nonneg (by nlinarith [hb.2])]

namespace ColorMatcher

/-- Module-level `color_distance`: Euclidean RGB distance between two colors,
with `sqrtq` standing for the float square root (`** 0.5`). -/
def color_distance (sqrtq : ℚ → ℚ) (c1 c2 : ℚ × ℚ × ℚ) : ℚ :=
  sqrtq ((c1.1 - c2.1) ^ 2 + (c1.2.1 - c2.2.1) ^ 2 + (c1.2.2 - c2.2.2) ^ 2)

/-- `self._max_dist = color_distance(QColor("black"), QColor("white"))`. -/
def maxDist (sqrtq : ℚ → ℚ) : ℚ :=
  color_distance sqrtq (0, 0, 0) (255, 255, 255)

/-- `ColorMatcher._update_volume`: `similarity = 1.0 - dist/max_dist`;
`volume = int(100 * similarity)` clamped to `[0, 100]`. -/
def update_volume (sqrtq : ℚ → ℚ) (target current : ℚ × ℚ × ℚ) : ℤ :=
  let dist := color_distance sqrtq target current
  let similarity := 1 - dist / maxDist sqrtq
  max 0 (min 100 (pyInt (100 * similarity)))

end ColorMatcher

/-- C6: for any float square root with `sqrt 0 = 0` and `sqrt 195075 ≠ 0`
(as the real one has), a current color equal to the target gives volume
exactly 100, and the black/white pair (in either order) gives volume
exactly 0. -/
theorem c6_color_matcher (sqrtq : ℚ → ℚ) (h0 : sqrtq 0 = 0)
    (hM : sqrtq 195075 ≠ 0) :
    (∀ t : ℚ × ℚ × ℚ, ColorMatcher.update_volume sqrtq t t = 100) ∧
    ColorMatcher.update_volume sqrtq (0, 0, 0) (255, 255, 255) = 0 ∧
    ColorMatcher.update_volume sqrtq (255, 255, 255) (0, 0, 0) = 0 := by
  have hmd : ColorMatcher.maxDist sqrtq = sqrtq 195075 := by
    unfold ColorMatcher.maxDist ColorMatcher.color_distance
    norm_num
  have hbw : ColorMatcher.color_distance sqrtq (0, 0, 0) (255, 255, 255)
      = sqrtq 195075 := by
    unfold ColorMatcher.color_distance
    norm_num
  have hwb : ColorMatcher.color_distance sqrtq (255, 255, 255) (0, 0, 0)
      = sqrtq 195075 := by
    unfold ColorMatcher.color_distance
    norm_num
  refine ⟨?_, ?_, ?_⟩
  · intro t
    unfold ColorMatcher.update_volume ColorMatcher.color_distance
    rw [show (t.1 - t.1) ^ 2 + (t.2.1 - t.2.1) ^ 2 + (t.2.2 - t.2.2) ^ 2
        = (0 : ℚ) by ring, h0]
    norm_num [pyInt]
  · unfold ColorMatcher.update_volume
    rw [hmd, hbw]
    dsimp only
    rw [div_self hM]
    norm_num [pyInt]
  · unfold ColorMatcher.update_volume
    rw [hmd, hwb]
    dsimp only
    rw [div_self hM]
    norm_num [pyInt]

/-- C6 witness: with the identity for `sqrtq` (`id 0 = 0`, `id 195075 ≠ 0`),
a matching pair emits exactly 100. -/
theorem c6_witness :
    ColorMatcher.update_volume id (7, 7, 7) (7, 7, 7) = 100 :=
  (c6_color_matcher id rfl (by norm_num)).1 (7, 7, 7)

namespace UnstableIsotope

/-- `UnstableIsotope._decay`: if the continuous value is positive, subtract
the decay rate `0.25` and floor the result at 0; otherwise leave it. -/
def decay (v : ℚ) : ℚ :=
  if 0 < v then (if v - 1 / 4 < 0 then 0 else v - 1 / 4) else v

theorem decay_le (v : ℚ) : decay v ≤ v := by
  unfold decay
  split
  · split
    · linarith
    · linarith
  · exact le_refl v

theorem decay_nonneg (v : ℚ) (h : 0 ≤ v) : 0 ≤ decay v := by
  unfold decay
  split
  · split
    · exact le_refl 0
    · linarith
  · exact h

theorem decay_iterate_closed (n : ℕ) :
    decay^[n] 50 = max 0 (50 - (n : ℚ) / 4) := by
  induction n with
  | zero => norm_num
  | succ n ih =>
    rw [Function.iterate_succ_apply', ih]
    rcases lt_or_le 0 (50 - (n : ℚ) / 4) with h | h
    · rw [max_eq_right h.le]
      unfold decay
      rw [if_pos h]
      push_cast
      rcases lt_or_le (50 - (n : ℚ) / 4 - 1 / 4) 0 with h2 | h2
      · rw [if_pos h2, eq_comm, max_eq_left (by linarith)]
      · rw [if_neg (not_lt.mpr h2), eq_comm, max_eq_right (by linarith)]
        ring
    · rw [max_eq_left (by linarith)]
      unfold decay
      rw [if_neg (by norm_num), eq_comm, max_eq_left]
      push_cast
      linarith

end UnstableIsotope

/-- C4: each decay tick is non-increasing and keeps the value nonnegative;
from `trueValue = 50`, after exactly 200 ticks the value is 0, and it is 0 on
all later ticks as well. -/
theorem c4_decay_slider :
    (∀ v : ℚ, UnstableIsotope.decay v ≤ v) ∧
    (∀ v : ℚ, 0 ≤ v → 0 ≤ UnstableIsotope.decay v) ∧
    UnstableIsotope.decay^[200] 50 = 0 ∧
    (∀ n : ℕ, UnstableIsotope.decay^[200 + n] 50 = 0) := by
  refine ⟨UnstableIsotope.decay_le, UnstableIsotope.decay_nonneg, ?_, ?_⟩
  · rw [UnstableIsotope.decay_iterate_closed]
    norm_num
  · intro n
    rw [UnstableIsotope.decay_iterate_closed]
    rw [max_eq_left]
    push_cast
    have hn : (0 : ℚ) ≤ (n : ℚ) := Nat.cast_nonneg n
    linarith

/-- C4 witness: one decay tick from 5 stays nonnegative, and 200 ticks from 50
reach exactly 0. -/
theorem c4_witness :
    0 ≤ UnstableIsotope.decay 5 ∧ UnstableIsotope.decay^[200] 50 = 0 :=
  ⟨c4_decay_slider.2.1 5 (by norm_num), c4_decay_slider.2.2.1⟩

namespace PerfectCircle

/-- `PerfectCircle.mouseReleaseEvent`: if not drawing or fewer than 10 points
were captured, the stroke is discarded with no emission.  Otherwise compute the
centroid, the per-point radii (with `sqrtq` standing for the float square
root), their mean and population standard deviation; a zero mean radius
short-circuits to an emission of 0, else
`volume = int(max(0, min(100, perfection*150 - 50)))` with
`perfection = 1 - std_dev/avg_radius`.  The result is the emitted volume,
`none` when nothing is emitted. -/
def mouseReleaseEvent (sqrtq : ℚ → ℚ) (isDrawing : Bool)
    (points : List (ℚ × ℚ)) : Option ℤ :=
  if isDrawing = false ∨ points.length < 10 then none
  else
    let n : ℚ := points.length
    let cx := (points.map Prod.fst).sum / n
    let cy := (points.map Prod.snd).sum / n
    let radii := points.map (fun p => sqrtq ((p.1 - cx) ^ 2 + (p.2 - cy) ^ 2))
    let avgRadius := radii.sum / n
    if avgRadius = 0 then some 0
    else
      let variance := (radii.map (fun r => (r - avgRadius) ^ 2)).sum / n
      let stdDev := sqrtq variance
      let perfection := 1 - stdDev / avgRadius
      some (pyInt (max 0 (min 100 (perfection * 150 - 50))))

end PerfectCircle

/-- C5: for any float square root with `sqrt 0 = 0`, a release with fewer than
10 captured points is discarded silently with no emission; a release with 10 or
more points all at exactly the same location takes the `meanRadius == 0` branch
and emits volume 0 (the division is never reached). -/
theorem c5_circle_degenerate (sqrtq : ℚ → ℚ) (h0 : sqrtq 0 = 0)
    (points : List (ℚ × ℚ)) :
    (points.length < 10 → ∀ dr : Bool,
      PerfectCircle.mouseReleaseEvent sqrtq dr points = none) ∧
    (∀ p : ℚ × ℚ, 10 ≤ points.length → (∀ q ∈ points, q = p) →
      PerfectCircle.mouseReleaseEvent sqrtq true points = some 0) := by
  constructor
  · intro hlen dr
    unfold PerfectCircle.mouseReleaseEvent
    rw [if_pos (Or.inr hlen)]
  · intro p hlen hall
    have hne : points.length ≠ 0 := by omega
    have hnq : ((points.length : ℚ)) ≠ 0 := by exact_mod_cast hne
    have hrep : points = List.replicate points.length p :=
      List.eq_replicate_iff.mpr ⟨rfl, hall⟩
    have hcan : ∀ x : ℚ, (points.length : ℚ) * x / (points.length : ℚ) = x :=
      fun x => mul_div_cancel_left₀ x hnq
    have hcond : ¬(true = false ∨ points.length < 10) := by
      rintro (hc | hc)
      · exact absurd hc (by decide)
      · omega
    unfold PerfectCircle.mouseReleaseEvent
    rw [if_neg hcond]
    dsimp only
    rw [hrep]
    simp only [List.map_replicate, List.sum_replicate, List.length_replicate,
      nsmul_eq_mul]
    simp [hcan, h0]

/-- C5 witness: ten coincident points emit volume 0 through the
zero-mean-radius branch. -/
theorem c5_witness :
    PerfectCircle.mouseReleaseEvent id true (List.replicate 10 (0, 0))
      = some 0 :=
  (c5_circle_degenerate id rfl (List.replicate 10 (0, 0))).2 (0, 0)
    (by simp) (fun q hq => List.eq_of_mem_replicate hq)

namespace BouncingBall

/-- State of `BouncingBall`: position, velocity, bounce count and whether the
animation timer is running. -/
structure BallState where
  posX : ℚ
  posY : ℚ
  velX : ℚ
  velY : ℚ
  bounces : ℕ
  isAnimating : Bool

/-- Vertical velocity after gravity (`vel.y += 0.5`). -/
def gravVelY (s : BallState) : ℚ := s.velY + 1 / 2

/-- Horizontal position after integration (`pos += vel`). -/
def rawX (s : BallState) : ℚ := s.posX + s.velX

/-- Vertical position after integration. -/
def rawY (s : BallState) : ℚ := s.posY + gravVelY s

/-- The x-wall contact test `x < radius or x > w - radius` (radius 20). -/
def hitX (w : ℚ) (s : BallState) : Prop := rawX s < 20 ∨ w - 20 < rawX s

/-- The floor/ceiling contact test `y < radius` / `y >= h - radius`. -/
def hitY (h : ℚ) (s : BallState) : Prop := rawY s < 20 ∨ h - 20 ≤ rawY s

instance (w : ℚ) (s : BallState) : Decidable (hitX w s) := by
  unfold hitX; infer_instance

instance (h : ℚ) (s : BallState) : Decidable (hitY h s) := by
  unfold hitY; infer_instance

/-- Horizontal velocity after any x-wall reflection (`*= -0.8`). -/
def newVelX (w : ℚ) (s : BallState) : ℚ :=
  if hitX w s then s.velX * (-4 / 5) else s.velX

/-- Horizontal position after the x clamp. -/
def newPosX (w : ℚ) (s : BallState) : ℚ :=
  if hitX w s then max 20 (min (rawX s) (w - 20)) else rawX s

/-- Vertical velocity after any floor/ceiling reflection. -/
def newVelY (h : ℚ) (s : BallState) : ℚ :=
  if hitY h s then gravVelY s * (-4 / 5) else gravVelY s

/-- Vertical position after the y clamp. -/
def newPosY (h : ℚ) (s : BallState) : ℚ :=
  if rawY s < 20 then 20
  else if h - 20 ≤ rawY s then h - 20
  else rawY s

/-- `bounced`: the ball touched a wall, the floor, or the ceiling this tick. -/
def contact (w h : ℚ) (s : BallState) : Prop := hitX w s ∨ hitY h s

instance (w h : ℚ) (s : BallState) : Decidable (contact w h s) := by
  unfold contact; infer_instance

/-- Timer flag after the rest test
(`manhattan < 0.1 and y >= h - radius - 1`). -/
def newAnimating (w h : ℚ) (s : BallState) : Bool :=
  if |newVelX w s| + |newVelY h s| < 1 / 10 ∧ h - 21 ≤ newPosY h s then false
  else s.isAnimating

/-- One tick of `BouncingBall._update_physics`: gravity, integration, wall
reflection with clamping, bounce counting gated by
`manhattanLength > 1.5` of the post-reflection velocity, and the rest test.
Returns the new state and the emitted volume, if any. -/
def update_physics (w h : ℚ) (s : BallState) : BallState × Option ℤ :=
  if contact w h s ∧ 3 / 2 < |newVelX w s| + |newVelY h s| then
    (⟨newPosX w s, newPosY h s, newVelX w s, newVelY h s, s.bounces + 1,
        newAnimating w h s⟩,
      some (min 100 ((s.bounces : ℤ) + 1)))
  else
    (⟨newPosX w s, newPosY h s, newVelX w s, newVelY h s, s.bounces,
        newAnimating w h s⟩,
      none)

end BouncingBall

/-- C9 counterexample: in a 100×100 widget, the state
`pos = (21, 50)`, `vel = (-1.25, 0.5)` contacts the left wall; the reflected
velocity is `(1, 1)`, whose Euclidean magnitude `√2 ≈ 1.414` is below the
noise threshold 1.5, yet the code (which tests `manhattanLength = 2 > 1.5`)
increments the bounce count and emits volume 1. -/
theorem c9_counterexample :
    (BouncingBall.update_physics 100 100 ⟨21, 50, -5 / 4, 1 / 2, 0, true⟩).2
        = some 1 ∧
      (BouncingBall.newVelX 100 ⟨21, 50, -5 / 4, 1 / 2, 0, true⟩) ^ 2 +
        (BouncingBall.newVelY 100 ⟨21, 50, -5 / 4, 1 / 2, 0, true⟩) ^ 2
        ≤ (3 / 2 : ℚ) ^ 2 := by
  norm_num [BouncingBall.update_physics, BouncingBall.contact,
    BouncingBall.hitX, BouncingBall.hitY, BouncingBall.newVelX,
    BouncingBall.newVelY, BouncingBall.rawX, BouncingBall.rawY,
    BouncingBall.gravVelY]

/-- C9 (amended): on a tick, the bounce count increments and
`volume = min(100, bounceCount)` is emitted if and only if the ball contacted
a wall, floor or ceiling and the post-reflection velocity's *manhattan length*
`|vx| + |vy|` (not its Euclidean magnitude) exceeds the noise threshold 1.5;
otherwise neither the bounce count nor the emitted volume changes. -/
theorem c9_bounce_threshold (w h : ℚ) (s : BouncingBall.BallState) :
    (BouncingBall.contact w h s ∧
        3 / 2 < |BouncingBall.newVelX w s| + |BouncingBall.newVelY h s| →
      (BouncingBall.update_physics w h s).1.bounces = s.bounces + 1 ∧
      (BouncingBall.update_physics w h s).2
        = some (min 100 ((s.bounces : ℤ) + 1))) ∧
    (¬(BouncingBall.contact w h s ∧
        3 / 2 < |BouncingBall.newVelX w s| + |BouncingBall.newVelY h s|) →
      (BouncingBall.update_physics w h s).1.bounces = s.bounces ∧
      (BouncingBall.update_physics w h s).2 = none) := by
  constructor
  · intro hc
    unfold BouncingBall.update_physics
    rw [if_pos hc]
    exact ⟨rfl, rfl⟩
  · intro hc
    unfold BouncingBall.update_physics
    rw [if_neg hc]
    exact ⟨rfl, rfl⟩

/-- C9 witness: the left-wall contact with reflected velocity `(1, 1)` has
manhattan length 2 above the threshold, so the bounce is counted and volume 1
is emitted. -/
theorem c9_witness :
    (BouncingBall.update_physics 100 100
        ⟨21, 50, -5 / 4, 1 / 2, 0, true⟩).1.bounces = 0 + 1 ∧
      (BouncingBall.update_physics 100 100
        ⟨21, 50, -5 / 4, 1 / 2, 0, true⟩).2 = some (min 100 ((0 : ℤ) + 1)) :=
  (c9_bounce_threshold 100 100 ⟨21, 50, -5 / 4, 1 / 2, 0, true⟩).1
    (by constructor
        · exact Or.inl (Or.inl (by norm_num [BouncingBall.rawX]))
        · norm_num [BouncingBall.newVelX, BouncingBall.newVelY,
            BouncingBall.hitX, BouncingBall.hitY, BouncingBall.rawX,
            BouncingBall.rawY, BouncingBall.gravVelY])

namespace MemoryGame

/-- A card button: its symbol, whether it is still enabled (unmatched), and
whether its text currently shows the symbol (face-up) instead of `?`. -/
structure MemCard where
  symbol : Char
  enabled : Bool
  shown : Bool

/-- Board state of `MemoryGame`: the card buttons in grid order, the currently
selected first and second cards, and the number of matched pairs. -/
structure MemState where
  cards : List MemCard
  first : Option ℕ
  second : Option ℕ
  matchedPairs : ℕ

/-- `MemoryGame.check_match`: if the two selected cards carry the same symbol,
disable both, increment `matched_pairs`, emit
`int((matched_pairs / 8.0) * 100)` and clear the selection; otherwise leave the
state as is (the code schedules `reset_cards` on a 1-second timer).  Returns
the new state and the emitted volume, if any. -/
def check_match (s : MemState) : MemState × Option ℤ :=
  match s.first, s.second with
  | some i, some j =>
    match s.cards.get? i, s.cards.get? j with
    | some ci, some cj =>
      if ci.symbol = cj.symbol then
        (⟨(s.cards.set i ⟨ci.symbol, false, ci.shown⟩).set j
            ⟨cj.symbol, false, cj.shown⟩,
          none, none, s.matchedPairs + 1⟩,
          some (pyInt (((s.matchedPairs + 1 : ℕ) : ℚ) / 8 * 100)))
      else (s, none)
    | _, _ => (s, none)
  | _, _ => (s, none)

/-- `MemoryGame.card_clicked` for the card at index `i`: ignored if the card is
disabled or two cards are already selected; otherwise the card text shows its
symbol, and it becomes the first selection, is ignored if it *is* the first
selection, or becomes the second selection triggering `check_match`. -/
def card_clicked (s : MemState) (i : ℕ) : MemState × Option ℤ :=
  match s.cards.get? i with
  | none => (s, none)
  | some c =>
    if c.enabled = false ∨ (s.first.isSome ∧ s.second.isSome) then (s, none)
    else
      let cards1 := s.cards.set i ⟨c.symbol, c.enabled, true⟩
      match s.first with
      | none => (⟨cards1, some i, s.second, s.matchedPairs⟩, none)
      | some j =>
        if i = j then (⟨cards1, s.first, s.second, s.matchedPairs⟩, none)
        else check_match ⟨cards1, s.first, some i, s.matchedPairs⟩

/-- `MemoryGame.reset_cards` helper: hide the card at an optional index. -/
def hideAt (cards : List MemCard) : Option ℕ → List MemCard
  | none => cards
  | some i =>
    match cards.get? i with
    | none => cards
    | some c => cards.set i ⟨c.symbol, c.enabled, false⟩

/-- `MemoryGame.reset_cards` (fires 1 second after a mismatch): reset both
selected cards' texts to `?` and clear the selection. -/
def reset_cards (s : MemState) : MemState :=
  ⟨hideAt (hideAt s.cards s.first) s.second, none, none, s.matchedPairs⟩

/-- A sequence of clicks; returns the final state and the emitted volumes in
order. -/
def runClicks (s : MemState) (clicks : List ℕ) : MemState × List ℤ :=
  clicks.foldl
    (fun acc i =>
      ((card_clicked acc.1 i).1, acc.2 ++ (card_clicked acc.1 i).2.toList))
    (s, [])

/-- One outcome of `random.shuffle` at game start: the identity arrangement of
the 8 symbol pairs, all cards enabled and face-down. -/
def freshBoard : MemState :=
  ⟨[⟨'A', true, false⟩, ⟨'A', true, false⟩, ⟨'B', true, false⟩,
    ⟨'B', true, false⟩, ⟨'C', true, false⟩, ⟨'C', true, false⟩,
    ⟨'D', true, false⟩, ⟨'D', true, false⟩, ⟨'E', true, false⟩,
    ⟨'E', true, false⟩, ⟨'F', true, false⟩, ⟨'F', true, false⟩,
    ⟨'G', true, false⟩, ⟨'G', true, false⟩, ⟨'H', true, false⟩,
    ⟨'H', true, false⟩],
    none, none, 0⟩

end MemoryGame

/-- C3 counterexample: on a fresh board (identity shuffle) the six clicks
matching the first three pairs emit volumes `[12, 25, 37]` — the third match
emits `int((3/8)*100) = int(37.5) = 37`, while the claimed formula
`round(100*matchedPairs/8) = round(37.5) = 38`. -/
theorem c3_counterexample :
    (MemoryGame.runClicks MemoryGame.freshBoard
        [0, 1, 2, 3, 4, 5]).1.matchedPairs = 3 ∧
    (MemoryGame.runClicks MemoryGame.freshBoard [0, 1, 2, 3, 4, 5]).2
      = [12, 25, 37] ∧
    (37 : ℤ) ≠ round ((100 * 3 : ℚ) / 8) := by
  refine ⟨rfl, ?_, by norm_num [round_eq]⟩
  have he : (MemoryGame.runClicks MemoryGame.freshBoard [0, 1, 2, 3, 4, 5]).2
      = [pyInt (((1 : ℕ) : ℚ) / 8 * 100), pyInt (((2 : ℕ) : ℚ) / 8 * 100),
          pyInt (((3 : ℕ) : ℚ) / 8 * 100)] := rfl
  rw [he]
  norm_num [pyInt]

/-- C3 (amended): from a state with no current selection, clicking the same
enabled card twice changes nothing in `matchedPairs` and emits nothing on the
first click; clicking two distinct enabled face-down cards with equal symbols
increments `matchedPairs` exactly once, permanently disables both cards, and
emits `volume = floor(100*matchedPairs/8)` (truncation, not rounding). -/
theorem c3_memory_match (s : MemoryGame.MemState) (i j : ℕ)
    (ci cj : MemoryGame.MemCard)
    (hfirst : s.first = none) (hsecond : s.second = none)
    (hci : s.cards.get? i = some ci) (hcj : s.cards.get? j = some cj)
    (hij : i ≠ j) (hcie : ci.enabled = true) (hcje : cj.enabled = true)
    (hshown : ci.shown = false ∧ cj.shown = false)
    (hsym : ci.symbol = cj.symbol) :
    (MemoryGame.card_clicked (MemoryGame.card_clicked s i).1 i).1.matchedPairs
        = s.matchedPairs ∧
    (MemoryGame.card_clicked s i).2 = none ∧
    (MemoryGame.card_clicked (MemoryGame.card_clicked s i).1 j).1.matchedPairs
        = s.matchedPairs + 1 ∧
    (MemoryGame.card_clicked (MemoryGame.card_clicked s i).1 j).2
        = some ⌊((100 * (s.matchedPairs + 1) : ℕ) : ℚ) / 8⌋ ∧
    (MemoryGame.card_clicked
        (MemoryGame.card_clicked s i).1 j).1.cards.get? i
        = some ⟨ci.symbol, false, true⟩ ∧
    (MemoryGame.card_clicked
        (MemoryGame.card_clicked s i).1 j).1.cards.get? j
        = some ⟨cj.symbol, false, true⟩ := by
  -- First click: select card `i`, show its symbol, emit nothing.
  have h1 : MemoryGame.card_clicked s i
      = (⟨s.cards.set i ⟨ci.symbol, true, true⟩, some i, none,
            s.matchedPairs⟩, (none : Option ℤ)) := by
    unfold MemoryGame.card_clicked
    rw [hci, hfirst, hsecond]
    simp [hcie]
  have hc1i : (s.cards.set i ⟨ci.symbol, true, true⟩).get? i
      = some ⟨ci.symbol, true, true⟩ := by
    rw [List.get?_set_eq, hci]
    rfl
  have hc1j : (s.cards.set i ⟨ci.symbol, true, true⟩).get? j = some cj := by
    rw [List.get?_set_ne _ _ hij, hcj]
  have hc2i : ((s.cards.set i ⟨ci.symbol, true, true⟩).set j
        ⟨cj.symbol, true, true⟩).get? i = some ⟨ci.symbol, true, true⟩ := by
    rw [List.get?_set_ne _ _ (Ne.symm hij), hc1i]
  have hc2j : ((s.cards.set i ⟨ci.symbol, true, true⟩).set j
        ⟨cj.symbol, true, true⟩).get? j = some ⟨cj.symbol, true, true⟩ := by
    rw [List.get?_set_eq, hc1j]
    rfl
  -- Second click on a distinct matching card: `check_match` fires.
  have h2 : MemoryGame.card_clicked
      (⟨s.cards.set i ⟨ci.symbol, true, true⟩, some i, none,
          s.matchedPairs⟩ : MemoryGame.MemState) j
      = (⟨(((s.cards.set i ⟨ci.symbol, true, true⟩).set j
              ⟨cj.symbol, true, true⟩).set i ⟨ci.symbol, false, true⟩).set j
            ⟨cj.symbol, false, true⟩, none, none, s.matchedPairs + 1⟩,
          some (pyInt (((s.matchedPairs + 1 : ℕ) : ℚ) / 8 * 100))) := by
    have hc2i' : ((s.cards.set i ⟨ci.symbol, true, true⟩).set j
          ⟨cj.symbol, true, true⟩)[i]? = some ⟨ci.symbol, true, true⟩ := by
      rw [← List.get?_eq_getElem?]
      exact hc2i
    have hc2j' : ((s.cards.set i ⟨ci.symbol, true, true⟩).set j
          ⟨cj.symbol, true, true⟩)[j]? = some ⟨cj.symbol, true, true⟩ := by
      rw [← List.get?_eq_getElem?]
      exact hc2j
    unfold MemoryGame.card_clicked MemoryGame.check_match
    rw [hc1j]
    simp [hcje, Ne.symm hij, hc2i, hc2j, hc2i', hc2j']
    exact hsym
  -- Clicking the selected card again changes nothing.
  have h3 : (MemoryGame.card_clicked
      (⟨s.cards.set i ⟨ci.symbol, true, true⟩, some i, none,
          s.matchedPairs⟩ : MemoryGame.MemState) i).1.matchedPairs
      = s.matchedPairs := by
    unfold MemoryGame.card_clicked
    rw [hc1i]
    simp
  -- The two disabled cards in the final board.
  have hfini : ((((s.cards.set i ⟨ci.symbol, true, true⟩).set j
        ⟨cj.symbol, true, true⟩).set i ⟨ci.symbol, false, true⟩).set j
        ⟨cj.symbol, false, true⟩).get? i = some ⟨ci.symbol, false, true⟩ := by
    rw [List.get?_set_ne _ _ (Ne.symm hij), List.get?_set_eq, hc2i]
    rfl
  have hfinj : ((((s.cards.set i ⟨ci.symbol, true, true⟩).set j
        ⟨cj.symbol, true, true⟩).set i ⟨ci.symbol, false, true⟩).set j
        ⟨cj.symbol, false, true⟩).get? j = some ⟨cj.symbol, false, true⟩ := by
    rw [List.get?_set_eq, List.get?_set_ne _ _ hij, hc2j]
    rfl
  refine ⟨by rw [h1]; exact h3, by rw [h1], by rw [h1, h2],
    ?_, by rw [h1, h2]; exact hfini, by rw [h1, h2]; exact hfinj⟩
  rw [h1, h2]
  have hnn : (0 : ℚ) ≤ ((s.matchedPairs + 1 : ℕ) : ℚ) / 8 * 100 := by
    positivity
  rw [pyInt_of_nonneg hnn]
  push_cast
  ring_nf

/-- C3 witness: on the fresh board, clicking cards 0 and 1 (the two `A`s)
increments `matchedPairs` to 1 and emits `floor(100/8) = 12`. -/
theorem c3_witness :
    (MemoryGame.card_clicked
        (MemoryGame.card_clicked MemoryGame.freshBoard 0).1 1).1.matchedPairs
      = MemoryGame.freshBoard.matchedPairs + 1 ∧
    (MemoryGame.card_clicked
        (MemoryGame.card_clicked MemoryGame.freshBoard 0).1 1).2
      = some ⌊((100 * (MemoryGame.freshBoard.matchedPairs + 1) : ℕ) : ℚ)
          / 8⌋ :=
  ⟨(c3_memory_match MemoryGame.freshBoard 0 1 ⟨'A', true, false⟩
      ⟨'A', true, false⟩ rfl rfl rfl rfl (by decide) rfl rfl ⟨rfl, rfl⟩
      rfl).2.2.1,
    (c3_memory_match MemoryGame.freshBoard 0 1 ⟨'A', true, false⟩
      ⟨'A', true, false⟩ rfl rfl rfl rfl (by decide) rfl rfl ⟨rfl, rfl⟩
      rfl).2.2.2.1⟩

namespace MainWindow

/-- Animation actions triggered by the visibility check. -/
inductive VisEvent where
  | reveal
  | rescramble
deriving DecidableEq

/-- `MainWindow._check_visibility` for one tracked label: given the scroll
offset, viewport height, and the label's top offset and height, together with
its current in-view flag, returns the new flag and the triggered action
(`start_decryption` on entering view, `reset_scramble` on fully leaving it),
if any. -/
def check_visibility (scrollY viewportHeight labelTop labelHeight : ℚ)
    (inView : Bool) : Bool × Option VisEvent :=
  let labelCenterY := labelTop + labelHeight / 2
  let visibleBottom := scrollY + viewportHeight
  let isNowVisible := scrollY ≤ labelCenterY ∧ labelCenterY ≤ visibleBottom
  if isNowVisible ∧ inView = false then (true, some VisEvent.reveal)
  else if ¬isNowVisible ∧ inView = true then
    if labelTop + labelHeight < scrollY ∨ visibleBottom < labelTop then
      (false, some VisEvent.rescramble)
    else (inView, none)
  else (inView, none)

end MainWindow

/-- C7: a not-in-view label becomes in-view (triggering reveal) exactly when
its vertical center lies in the inclusive interval
`[scrollOffset, scrollOffset + viewportHeight]`; an in-view label is marked
out-of-view only when its bottom is above `scrollOffset` or its top is below
`scrollOffset + viewportHeight`; and an in-view label whose center has left
the interval but whose body still overlaps the viewport stays in-view with no
rescramble. -/
theorem c7_visibility (scrollY vh top h : ℚ) :
    (MainWindow.check_visibility scrollY vh top h false
        = (true, some MainWindow.VisEvent.reveal)
      ↔ (scrollY ≤ top + h / 2 ∧ top + h / 2 ≤ scrollY + vh)) ∧
    ((MainWindow.check_visibility scrollY vh top h true).1 = false →
      (top + h < scrollY ∨ scrollY + vh < top)) ∧
    (¬(scrollY ≤ top + h / 2 ∧ top + h / 2 ≤ scrollY + vh) →
      scrollY ≤ top + h → top ≤ scrollY + vh →
      MainWindow.check_visibility scrollY vh top h true = (true, none)) := by
  refine ⟨⟨?_, ?_⟩, ?_, ?_⟩
  · intro heq
    by_contra hv
    simp [MainWindow.check_visibility, hv] at heq
  · intro hv
    simp [MainWindow.check_visibility, hv]
  · intro h'
    by_cases hv : scrollY ≤ top + h / 2 ∧ top + h / 2 ≤ scrollY + vh
    · exfalso
      simp [MainWindow.check_visibility, hv] at h'
    · by_cases hout : top + h < scrollY ∨ scrollY + vh < top
      · exact hout
      · exfalso
        simp [MainWindow.check_visibility, hv, hout] at h'
  · intro hv hb ht
    have hout : ¬(top + h < scrollY ∨ scrollY + vh < top) := by
      push_neg
      exact ⟨hb, ht⟩
    simp [MainWindow.check_visibility, hv, hout]

/-- C7 witness: label with top −30, height 40 in a viewport `[0, 100]`: its
center −10 is outside the interval, but its bottom 10 still overlaps, so it
stays in-view with no rescramble. -/
theorem c7_witness :
    MainWindow.check_visibility 0 100 (-30) 40 true = (true, none) :=
  (c7_visibility 0 100 (-30) 40).2.2 (by norm_num) (by norm_num) (by norm_num)

namespace DecryptedLabel

/-- Animation state of a `DecryptedLabel`: the true text, how many leading
characters are revealed, whether the reveal animation is running, whether the
timer is running, and the currently displayed text. -/
structure LabelState where
  originalText : String
  revealedCount : ℕ
  isAnimating : Bool
  timerOn : Bool
  displayed : String

/-- `DecryptedLabel._update_text`, one timer tick: when everything is
revealed, stop the timer and show the original text; otherwise reveal one more
character and rescramble the tail.  `rand n` stands for the freshly
re-randomized scramble string of length `n`. -/
def update_text (rand : ℕ → String) (s : LabelState) : LabelState :=
  if s.originalText.length ≤ s.revealedCount then
    ⟨s.originalText, s.revealedCount, false, false, s.originalText⟩
  else
    ⟨s.originalText, s.revealedCount + 1, s.isAnimating, s.timerOn,
      s.originalText.take (s.revealedCount + 1)
        ++ rand (s.originalText.length - (s.revealedCount + 1))⟩

/-- `DecryptedLabel.start_decryption`: if no animation is running and the
original text is nonempty, restart the reveal from zero and start the
timer. -/
def start_decryption (s : LabelState) : LabelState :=
  if s.isAnimating = false ∧ s.originalText ≠ "" then
    ⟨s.originalText, 0, true, true, s.displayed⟩
  else s

/-- `DecryptedLabel.reset_scramble`: stop any running animation and show a
fully scrambled string. -/
def reset_scramble (rand : ℕ → String) (s : LabelState) : LabelState :=
  ⟨s.originalText, s.revealedCount, false,
    (if s.isAnimating = true then false else s.timerOn),
    rand s.originalText.length⟩

end DecryptedLabel

/-- C10: for a label with nonempty original text, the Revealed state
(animation stopped, full text shown) is not terminal for `start_decryption`:
calling it again resets `revealedCount` to 0, sets `isAnimating`, restarts the
timer, and the next tick reveals again from scratch (`revealedCount` becomes
1). -/
theorem c10_start_decryption_restart (s : DecryptedLabel.LabelState)
    (hanim : s.isAnimating = false) (hne : s.originalText ≠ "")
    (hrc : s.revealedCount = s.originalText.length)
    (hdisp : s.displayed = s.originalText) :
    (DecryptedLabel.start_decryption s).revealedCount = 0 ∧
    (DecryptedLabel.start_decryption s).isAnimating = true ∧
    (DecryptedLabel.start_decryption s).timerOn = true ∧
    ∀ rand : ℕ → String,
      (DecryptedLabel.update_text rand
        (DecryptedLabel.start_decryption s)).revealedCount = 1 := by
  have hstart : DecryptedLabel.start_decryption s
      = ⟨s.originalText, 0, true, true, s.displayed⟩ := by
    unfold DecryptedLabel.start_decryption
    rw [if_pos ⟨hanim, hne⟩]
  refine ⟨by rw [hstart], by rw [hstart], by rw [hstart], ?_⟩
  intro rand
  rw [hstart]
  unfold DecryptedLabel.update_text
  have hpos : ∀ t : String, t ≠ "" → 0 < t.length := by
    intro t ht
    cases t with
    | mk data =>
      cases data with
      | nil => exact absurd rfl ht
      | cons c cs => simp [String.length]
  have hlen : ¬(s.originalText.length ≤ (0 : ℕ)) :=
    not_le.mpr (hpos s.originalText hne)
  rw [if_neg hlen]

/-- C10 witness: a fully revealed two-character label restarts from zero. -/
theorem c10_witness :
    (DecryptedLabel.start_decryption ⟨"AB", 2, false, false, "AB"⟩).revealedCount
        = 0 ∧
      (DecryptedLabel.start_decryption
        ⟨"AB", 2, false, false, "AB"⟩).isAnimating = true :=
  ⟨(c10_start_decryption_restart ⟨"AB", 2, false, false, "AB"⟩ rfl
      (by decide) rfl rfl).1,
    (c10_start_decryption_restart ⟨"AB", 2, false, false, "AB"⟩ rfl
      (by decide) rfl rfl).2.1⟩
